import Mathlib

/-!
Shallow embedding of the selector engine (`create_selector_with_fn` in
`leptos_reactive/src/selector.rs`) and of the single-threaded backend of the
lock abstraction (`ReadWriteLock for RefCell` in `leptos_reactive/src/sync.rs`).

The selector keeps, per instance,
  * a registry `subs : HashMap<T, (ReadSignal<bool>, WriteSignal<bool>)>`,
  * a cached latest source value `v : Option<T>`,
and runs one effect that, on each source change, notifies the per-key boolean
signals.  Signals are modelled by indices into an explicit store `signals :
List Bool`; `create_signal(cx, false)` appends a fresh `false` cell and
returns its index.  The registry is modelled as an association list keyed by
`K` (a `HashMap` with unique keys in the source); a run of the effect body and
a call of the query closure become pure state transformers that additionally
report the keys whose signal got written (effect) and the value returned or
the panic (query, `Option Bool` with `none` for the `unwrap` panic).
-/

namespace LeptosReactive

/-- Dynamic borrow state of a `RefCell`: unborrowed, shared-borrowed by `n + 1`
readers, or exclusively borrowed by one writer. -/
inductive BorrowState where
  | unborrowed
  | reading (n : Nat)
  | writing
deriving DecidableEq

/-- Model of `RefCell<T>` from the single-threaded backend in `sync.rs`:
the held value together with the dynamic borrow flag. -/
structure RefCellModel (T : Type) where
  value : T
  borrow : BorrowState

/-- `fn try_read(&self) -> Option<Self::ReadGuard>` of the `RefCell` backend:
`self.try_borrow().ok()`.  `try_borrow` succeeds exactly when the cell is not
exclusively (mutably) borrowed; the guard gives access to the value. -/
def RefCellModel.try_read {T : Type} (c : RefCellModel T) : Option T :=
  match c.borrow with
  | BorrowState.writing => none
  | _ => some c.value

/-- `fn try_write(&self) -> Option<Self::WriteGuard>` of the `RefCell` backend:
`self.try_borrow_mut().ok()`.  `try_borrow_mut` succeeds exactly when the cell
is not borrowed at all. -/
def RefCellModel.try_write {T : Type} (c : RefCellModel T) : Option T :=
  match c.borrow with
  | BorrowState.unborrowed => some c.value
  | _ => none

/-- The shared state of one selector instance: the registry `subs` (key to
signal index), the store of per-key boolean signal cells, and the cached
latest source value `v`. -/
structure SelectorState (K V : Type) where
  registry : List (K × Nat)
  signals : List Bool
  latest_value : Option V
deriving DecidableEq

/-- `HashMap` lookup on the association-list model of the registry. -/
def lookupKey {K : Type} [DecidableEq K] (k : K) : List (K × Nat) → Option Nat
  | [] => none
  | (k₀, id) :: rest => if k₀ = k then some id else lookupKey k rest

/-- The notify condition of the effect body, line by line from the source:
`f(&key, &next_value) || (prev.is_some() && f(&key, prev.as_ref().unwrap()))`. -/
def notifyCond {K V : Type} (f : K → V → Bool) (prev : Option V) (next : V)
    (k : K) : Bool :=
  f k next ||
    (match prev with
     | some p => f k p
     | none => false)

/-- Result of one run of the effect body: the state of the shared cells
afterwards, the keys whose signal got written (each write stores `true`), and
the body's return value (which the substrate passes back as `prev`). -/
structure EffectResult (K V : Type) where
  state : SelectorState K V
  written : List K
  ret : V
deriving DecidableEq

/-- One run of the effect body of `create_selector_with_fn`, given the value
`prev` returned by the previous run (`none` on the first run) and the value
`next` produced by `source()`:

1. store `Some(next)` into `v`;
2. if `prev.as_ref() != Some(&next)`, snapshot the registry and, for every
   `(key, signal)` in the snapshot, write `true` to the signal whenever
   `f(&key, &next) || (prev.is_some() && f(&key, prev.as_ref().unwrap()))`;
3. return `next`. -/
def effectRun {K V : Type} [DecidableEq V] (f : K → V → Bool)
    (prev : Option V) (next : V) (s : SelectorState K V) : EffectResult K V :=
  let s₁ : SelectorState K V :=
    ⟨s.registry, s.signals, some next⟩
  if prev = some next then
    ⟨s₁, [], next⟩
  else
    let snapshot := s₁.registry
    ⟨⟨s₁.registry,
      snapshot.foldl
        (fun sigs kb =>
          if notifyCond f prev next kb.1 then sigs.set kb.2 true else sigs)
        s₁.signals,
      s₁.latest_value⟩,
     (snapshot.filter (fun kb => notifyCond f prev next kb.1)).map Prod.fst,
     next⟩

/-- Result of one call of the query closure: the state of the shared cells
when the call returns or unwinds, the boolean obtained by the tracked read of
the key's signal (discarded by the source: `_ = read.try_with(|n| *n)`), and
the answer — `none` models the panic of `v.read().as_ref().unwrap()` when the
cached value is still absent. -/
structure QueryResult (K V : Type) where
  state : SelectorState K V
  trackedRead : Option Bool
  result : Option Bool
deriving DecidableEq

/-- One call of the query closure returned by `create_selector_with_fn`:

1. get-or-insert the key's entry under a write acquisition
   (`subs.entry(key.clone()).or_insert_with(|| create_signal(cx, false))`);
2. tracked read of the signal, value discarded;
3. return `f(&key, v.read().as_ref().unwrap())` — a panic (`none`) when the
   cached latest value is still absent. -/
def queryRun {K V : Type} [DecidableEq K] (f : K → V → Bool) (k : K)
    (s : SelectorState K V) : QueryResult K V :=
  match lookupKey k s.registry with
  | some id =>
      ⟨s, s.signals.get? id, s.latest_value.map (fun v => f k v)⟩
  | none =>
      ⟨⟨s.registry ++ [(k, s.signals.length)], s.signals ++ [false],
        s.latest_value⟩,
       some false,
       s.latest_value.map (fun v => f k v)⟩

/- Helper lemmas shared by the claim theorems. -/

theorem notifyCond_iff {K V : Type} (f : K → V → Bool) (prev : Option V)
    (next : V) (k : K) :
    notifyCond f prev next k = true ↔
      (f k next = true ∨ ∃ p, prev = some p ∧ f k p = true) := by
  cases prev <;> simp [notifyCond]

theorem mem_written_iff {K V : Type} [DecidableEq V] (f : K → V → Bool)
    (prev : Option V) (next : V) (s : SelectorState K V)
    (hchange : prev ≠ some next) (k : K) :
    k ∈ (effectRun f prev next s).written ↔
      ∃ id, (k, id) ∈ s.registry ∧ notifyCond f prev next k = true := by
  unfold effectRun
  rw [if_neg hchange]
  simp only [List.mem_map, List.mem_filter]
  constructor
  · rintro ⟨⟨k₀, id₀⟩, ⟨hm, hc⟩, hk⟩
    obtain rfl : k₀ = k := hk
    exact ⟨id₀, hm, hc⟩
  · rintro ⟨id, hm, hc⟩
    exact ⟨(k, id), ⟨hm, hc⟩, rfl⟩

/-- C1: in the effect body's notification pass for a source transition from
`prev` to `next` with `prev ≠ some next`, a key present in the registry
snapshot has its signal written if and only if `f(key, next) = true`, or
`prev` is present and `f(key, prev) = true`; nothing else triggers or
suppresses the write. -/
theorem c1_notification_law {K V : Type} [DecidableEq V] (f : K → V → Bool)
    (prev : Option V) (next : V) (s : SelectorState K V)
    (hchange : prev ≠ some next) (k : K) (id : Nat)
    (hmem : (k, id) ∈ s.registry) :
    k ∈ (effectRun f prev next s).written ↔
      (f k next = true ∨ ∃ p, prev = some p ∧ f k p = true) := by
  rw [mem_written_iff f prev next s hchange k, ← notifyCond_iff]
  exact ⟨fun ⟨_, _, hc⟩ => hc, fun hc => ⟨id, hmem, hc⟩⟩

/-- Witness for C1 at a concrete transition `some 1 → 2` with the equality
relation and the key `2` registered at signal index `0`. -/
theorem c1_notification_law_witness :
    ((some 1 : Option Nat) ≠ some 2) ∧
    ((2, 0) ∈ ([((2 : Nat), 0)] : List (Nat × Nat))) ∧
    (2 ∈ (effectRun (fun a b : Nat => decide (a = b)) (some 1) 2
            ⟨[(2, 0)], [false], none⟩).written ↔
      (decide ((2 : Nat) = 2) = true ∨
        ∃ p, (some 1 : Option Nat) = some p ∧ decide (2 = p) = true)) :=
  ⟨by decide, by decide,
   c1_notification_law (fun a b : Nat => decide (a = b)) (some 1) 2
     ⟨[(2, 0)], [false], none⟩ (by decide) 2 0 (by decide)⟩

/-- C2: the boolean returned by a query equals `f(key, latest_value)` computed
at call time; the boolean stored in the key's signal never contributes to the
answer (the answer is unchanged under an arbitrary replacement of the signal
store). -/
theorem c2_live_reevaluation {K V : Type} [DecidableEq K] (f : K → V → Bool)
    (k : K) (reg : List (K × Nat)) (sigs sigs₂ : List Bool) (v : V) :
    (queryRun f k ⟨reg, sigs, some v⟩).result = some (f k v) ∧
    (queryRun f k ⟨reg, sigs, some v⟩).result =
      (queryRun f k ⟨reg, sigs₂, some v⟩).result := by
  unfold queryRun
  cases h : lookupKey k reg <;> simp

/-- C3: when the new source value equals the effect's previous return value
(`prev = some next`), the change gate suppresses the whole notification pass:
no key is written and the signal store is untouched. -/
theorem c3_no_spurious_notification {K V : Type} [DecidableEq V]
    (f : K → V → Bool) (next : V) (s : SelectorState K V) :
    (effectRun f (some next) next s).written = [] ∧
    (effectRun f (some next) next s).state.signals = s.signals := by
  unfold effectRun
  rw [if_pos rfl]
  exact ⟨rfl, rfl⟩

/-- C7: a query issued while the cached latest value is still absent panics
(`none`) instead of returning any boolean answer. -/
theorem c7_query_before_first_run {K V : Type} [DecidableEq K]
    (f : K → V → Bool) (k : K) (reg : List (K × Nat)) (sigs : List Bool) :
    (queryRun f k ⟨reg, sigs, (none : Option V)⟩).result = none := by
  unfold queryRun
  cases h : lookupKey k reg <;> simp

/-- C4, counterexample: on the very first run (`prev = none`) with the
equality relation, source value `5`, and the key `5` already registered, the
notification pass does fire and the key's signal is written — refuting the
claim that on the first run no key's signal is written regardless of the
registry's contents. -/
theorem c4_counterexample :
    (effectRun (fun a b : Nat => decide (a = b)) none 5
       ⟨[(5, 0)], [false], none⟩).written = [5] ∧
    (effectRun (fun a b : Nat => decide (a = b)) none 5
       ⟨[(5, 0)], [false], none⟩).state.signals = [true] := by
  decide

/-- C4, amended: on the very first run (`prev = none`) the change gate always
passes (`none ≠ some next`), and a registered key's signal is written exactly
when `f(key, next) = true` — the `prev` disjunct of the notify condition never
triggers.  In particular nothing is written only when no registered key
matches `next` (e.g. when the registry is empty, the normal situation since
the effect first runs at construction time, before any query). -/
theorem c4_first_run_amended {K V : Type} [DecidableEq V] (f : K → V → Bool)
    (next : V) (s : SelectorState K V) (k : K) (id : Nat)
    (hmem : (k, id) ∈ s.registry) :
    k ∈ (effectRun f none next s).written ↔ f k next = true := by
  rw [mem_written_iff f none next s (fun h => Option.noConfusion h) k]
  constructor
  · rintro ⟨_, _, hc⟩
    simpa [notifyCond] using hc
  · intro hc
    exact ⟨id, hmem, by simp [notifyCond, hc]⟩

/-- Witness for the amended C4 at the first run with source value `5` and the
registered key `5`. -/
theorem c4_first_run_amended_witness :
    ((5, 0) ∈ ([((5 : Nat), 0)] : List (Nat × Nat))) ∧
    (5 ∈ (effectRun (fun a b : Nat => decide (a = b)) none 5
            ⟨[(5, 0)], [false], none⟩).written ↔
      decide ((5 : Nat) = 5) = true) :=
  ⟨by decide,
   c4_first_run_amended (fun a b : Nat => decide (a = b)) 5
     ⟨[(5, 0)], [false], none⟩ 5 0 (by decide)⟩

/-- C5: the first query for a key appends exactly one registry entry backed by
exactly one freshly created signal (initialised `false`); a later query for
the same key changes neither the registry nor the signal store; and a run of
the effect body never inserts, replaces or deletes a registry entry. -/
theorem c5_registry_stability {K V : Type} [DecidableEq K] [DecidableEq V]
    (f : K → V → Bool) (k : K) (s : SelectorState K V) (prev : Option V)
    (next : V) :
    (lookupKey k s.registry = none →
       (queryRun f k s).state.registry = s.registry ++ [(k, s.signals.length)] ∧
       (queryRun f k s).state.signals = s.signals ++ [false]) ∧
    (∀ id, lookupKey k s.registry = some id →
       (queryRun f k s).state.registry = s.registry ∧
       (queryRun f k s).state.signals = s.signals) ∧
    (effectRun f prev next s).state.registry = s.registry := by
  refine ⟨fun hnone => ?_, fun id hsome => ?_, ?_⟩
  · unfold queryRun
    rw [hnone]
    exact ⟨rfl, rfl⟩
  · unfold queryRun
    rw [hsome]
    exact ⟨rfl, rfl⟩
  · unfold effectRun
    by_cases h : prev = some next
    · rw [if_pos h]
    · rw [if_neg h]

/-- Witness for C5: the first query for key `3` inserts its entry, the second
query for `3` leaves the state unchanged, and an effect run preserves the
registry. -/
theorem c5_registry_stability_witness :
    ((queryRun (fun a b : Nat => decide (a = b)) 3
        ⟨[], [], some 0⟩).state.registry = [] ++ [(3, 0)] ∧
     (queryRun (fun a b : Nat => decide (a = b)) 3
        ⟨[], [], some 0⟩).state.signals = [] ++ [false]) ∧
    ((queryRun (fun a b : Nat => decide (a = b)) 3
        ⟨[(3, 0)], [false], some 0⟩).state.registry = [(3, 0)] ∧
     (queryRun (fun a b : Nat => decide (a = b)) 3
        ⟨[(3, 0)], [false], some 0⟩).state.signals = [false]) ∧
    (effectRun (fun a b : Nat => decide (a = b)) (some 0) 3
       ⟨[(3, 0)], [false], some 0⟩).state.registry = [(3, 0)] :=
  ⟨(c5_registry_stability (fun a b : Nat => decide (a = b)) 3
      ⟨[], [], some 0⟩ (some 0) 3).1 rfl,
   (c5_registry_stability (fun a b : Nat => decide (a = b)) 3
      ⟨[(3, 0)], [false], some 0⟩ (some 0) 3).2.1 0 rfl,
   (c5_registry_stability (fun a b : Nat => decide (a = b)) 3
      ⟨[(3, 0)], [false], some 0⟩ (some 0) 3).2.2⟩

/-- C6, counterexample: on the `RefCell` backend `try_read` fails while an
exclusive (write) borrow is live and `try_write` fails while a shared (read)
borrow is live — refuting the claim that on the single-threaded backend the
try-variants succeed for every state of the lock. -/
theorem c6_counterexample :
    (RefCellModel.try_read ⟨(0 : Nat), BorrowState.writing⟩).isSome = false ∧
    (RefCellModel.try_write ⟨(0 : Nat), BorrowState.reading 0⟩).isSome
      = false := by
  decide

/-- C6, amended: on the `RefCell` backend `try_read` succeeds exactly when no
write borrow is live, and `try_write` succeeds exactly when no borrow at all
is live; in particular, in the unborrowed state (no reentrant guard held) both
always succeed immediately. -/
theorem c6_try_lock_amended {T : Type} (c : RefCellModel T) :
    ((RefCellModel.try_read c).isSome = true ↔
       c.borrow ≠ BorrowState.writing) ∧
    ((RefCellModel.try_write c).isSome = true ↔
       c.borrow = BorrowState.unborrowed) := by
  obtain ⟨v, b⟩ := c
  cases b <;> simp [RefCellModel.try_read, RefCellModel.try_write]

/-- C8: frame conditions — a query never changes the cached latest value and
changes the registry and signal store at most by appending the queried key's
fresh entry; a run of the effect body never inserts, replaces or removes a
registry entry. -/
theorem c8_frame_conditions {K V : Type} [DecidableEq K] [DecidableEq V]
    (f : K → V → Bool) (k : K) (s : SelectorState K V) (prev : Option V)
    (next : V) :
    (queryRun f k s).state.latest_value = s.latest_value ∧
    ((queryRun f k s).state.registry = s.registry ∨
      (queryRun f k s).state.registry = s.registry ++ [(k, s.signals.length)]) ∧
    ((queryRun f k s).state.signals = s.signals ∨
      (queryRun f k s).state.signals = s.signals ++ [false]) ∧
    (effectRun f prev next s).state.registry = s.registry := by
  refine ⟨?_, ?_, ?_, ?_⟩
  · unfold queryRun
    cases h : lookupKey k s.registry <;> rfl
  · unfold queryRun
    cases h : lookupKey k s.registry
    · exact Or.inr rfl
    · exact Or.inl rfl
  · unfold queryRun
    cases h : lookupKey k s.registry
    · exact Or.inr rfl
    · exact Or.inl rfl
  · unfold effectRun
    by_cases h : prev = some next
    · rw [if_pos h]
    · rw [if_neg h]

/-- C9: when a query for a not-yet-registered key runs while the cached latest
value is absent, the panic happens only after the get-or-insert committed: the
call ends with the fresh entry (and its `false` signal) in the registry — the
mutation is not rolled back on the usage-error path. -/
theorem c9_no_rollback_on_panic {K V : Type} [DecidableEq K]
    (f : K → V → Bool) (k : K) (s : SelectorState K V)
    (habsent : s.latest_value = none)
    (hnew : lookupKey k s.registry = none) :
    (queryRun f k s).result = none ∧
    (queryRun f k s).state.registry = s.registry ++ [(k, s.signals.length)] ∧
    (queryRun f k s).state.signals = s.signals ++ [false] := by
  unfold queryRun
  rw [hnew]
  exact ⟨by simp [habsent], rfl, rfl⟩

/-- Witness for C9: querying key `7` on a fresh selector whose effect has not
run yet panics but leaves the new entry behind. -/
theorem c9_no_rollback_on_panic_witness :
    (queryRun (fun a b : Nat => decide (a = b)) 7
       ⟨[], [], none⟩).result = none ∧
    (queryRun (fun a b : Nat => decide (a = b)) 7
       ⟨[], [], none⟩).state.registry = [] ++ [(7, 0)] ∧
    (queryRun (fun a b : Nat => decide (a = b)) 7
       ⟨[], [], none⟩).state.signals = [] ++ [false] :=
  c9_no_rollback_on_panic (fun a b : Nat => decide (a = b)) 7
    ⟨[], [], none⟩ rfl rfl

/- Helper lemmas about writes into the signal store. -/

theorem get_set_true_cases :
    ∀ (sigs : List Bool) (j i : Nat),
      (sigs.set j true).get? i = sigs.get? i ∨
      (sigs.set j true).get? i = some true
  | [], _, _ => Or.inl rfl
  | _ :: _, 0, 0 => Or.inr rfl
  | _ :: _, 0, _ + 1 => Or.inl rfl
  | _ :: _, _ + 1, 0 => Or.inl rfl
  | _ :: rest, j + 1, i + 1 => get_set_true_cases rest j i

theorem foldl_set_true_cases {K : Type} (p : K × Nat → Bool) :
    ∀ (l : List (K × Nat)) (sigs : List Bool) (i : Nat),
      (l.foldl (fun acc kb => if p kb then acc.set kb.2 true else acc)
          sigs).get? i = sigs.get? i ∨
      (l.foldl (fun acc kb => if p kb then acc.set kb.2 true else acc)
          sigs).get? i = some true
  | [], _, _ => Or.inl rfl
  | kb :: rest, sigs, i => by
    rw [List.foldl_cons]
    rcases foldl_set_true_cases p rest
        (if p kb then sigs.set kb.2 true else sigs) i with h | h
    · rw [h]
      by_cases hp : p kb = true
      · rw [if_pos hp]
        exact get_set_true_cases sigs kb.2 i
      · rw [if_neg hp]
        exact Or.inl rfl
    · exact Or.inr h

theorem get_append_false {sigs : List Bool} {i : Nat}
    (h : sigs.get? i = some true) : (sigs ++ [false]).get? i = some true := by
  have hlt : i < sigs.length := by
    by_contra hge
    rw [List.get?_eq_none.mpr (Nat.le_of_not_lt hge)] at h
    exact Option.noConfusion h
  rw [List.get?_append hlt]
  exact h

/-- C10: the engine only ever writes `true` into a per-key signal — a signal
is created holding `false`, every cell the effect's notification pass touches
ends up `true` (each cell is either untouched or `true` afterwards), and a
cell already holding `true` still holds `true` after any query or any effect
run. -/
theorem c10_signal_writes_monotone {K V : Type} [DecidableEq K] [DecidableEq V]
    (f : K → V → Bool) (k : K) (s : SelectorState K V) (prev : Option V)
    (next : V) (i : Nat) :
    (lookupKey k s.registry = none →
       (queryRun f k s).state.signals = s.signals ++ [false]) ∧
    ((effectRun f prev next s).state.signals.get? i = s.signals.get? i ∨
      (effectRun f prev next s).state.signals.get? i = some true) ∧
    (s.signals.get? i = some true →
       (queryRun f k s).state.signals.get? i = some true) ∧
    (s.signals.get? i = some true →
       (effectRun f prev next s).state.signals.get? i = some true) := by
  have heffect :
      (effectRun f prev next s).state.signals.get? i = s.signals.get? i ∨
      (effectRun f prev next s).state.signals.get? i = some true := by
    unfold effectRun
    by_cases h : prev = some next
    · rw [if_pos h]
      exact Or.inl rfl
    · rw [if_neg h]
      exact foldl_set_true_cases _ s.registry s.signals i
  refine ⟨fun hnone => ?_, heffect, fun htrue => ?_, fun htrue => ?_⟩
  · unfold queryRun
    rw [hnone]
  · unfold queryRun
    cases hl : lookupKey k s.registry
    · exact get_append_false htrue
    · exact htrue
  · rcases heffect with h | h
    · rw [h]
      exact htrue
    · exact h

/-- Witness for C10 with a registry holding keys `1` (signal `0`, already
`true`) and `2` (signal `1`), a transition `some 1 → 2`, and a first query for
key `9`. -/
theorem c10_signal_writes_monotone_witness :
    ((queryRun (fun a b : Nat => decide (a = b)) 9
        ⟨[(1, 0), (2, 1)], [true, false], some 1⟩).state.signals
      = [true, false] ++ [false]) ∧
    ((effectRun (fun a b : Nat => decide (a = b)) (some 1) 2
        ⟨[(1, 0), (2, 1)], [true, false], some 1⟩).state.signals.get? 0
      = [true, false].get? 0 ∨
      (effectRun (fun a b : Nat => decide (a = b)) (some 1) 2
        ⟨[(1, 0), (2, 1)], [true, false], some 1⟩).state.signals.get? 0
      = some true) ∧
    ((queryRun (fun a b : Nat => decide (a = b)) 9
        ⟨[(1, 0), (2, 1)], [true, false], some 1⟩).state.signals.get? 0
      = some true) ∧
    ((effectRun (fun a b : Nat => decide (a = b)) (some 1) 2
        ⟨[(1, 0), (2, 1)], [true, false], some 1⟩).state.signals.get? 0
      = some true) :=
  have h := c10_signal_writes_monotone (fun a b : Nat => decide (a = b)) 9
    ⟨[(1, 0), (2, 1)], [true, false], some 1⟩ (some 1) 2 0
  ⟨h.1 rfl, h.2.1, h.2.2.1 rfl, h.2.2.2 rfl⟩

end LeptosReactive
